import Mathlib

/-!
Shallow embedding of `app/recipe/views.py` (recipe-app-api).

The source file defines three Django REST Framework view sets:
`RecipeViewSet`, `BaseRecipeAttrViewSet` (with concrete `TagViewSet` and
`IngredientViewSet`), whose behaviour relevant to the specification is the
construction of per-user querysets, query-parameter parsing, recipe creation
ownership, and the image-upload action.

The database is embedded as explicit lists of rows; a queryset is a list of
rows (a row may occur several times after a multi-valued join, exactly as in
the SQL the ORM generates, and `.distinct()` removes the duplicates).
Python exceptions are embedded with `Except`: `int(...)` on a malformed
string yields `.error (.valueError ...)`, and an error that reaches the top
of `get_queryset` is an unhandled exception, which the framework surfaces as
an HTTP 500 response.
-/

/-- A Python exception raised by this layer (only `ValueError` from `int()`
can be raised here). -/
inductive PyErr where
  | valueError (arg : String)
deriving DecidableEq, Repr

deriving instance DecidableEq for Except

/-- The digits of a decimal literal folded to a natural number. -/
def digitsToNat (cs : List Char) : Nat :=
  cs.foldl (fun n c => n * 10 + (c.toNat - 48)) 0

/-- Leading and trailing whitespace stripped from a character list (the
effect of Python's `str.strip()` / Lean's `String.trim`, written as a
structural recursion so that concrete inputs evaluate). -/
def trimChars (cs : List Char) : List Char :=
  ((cs.dropWhile Char.isWhitespace).reverse.dropWhile Char.isWhitespace).reverse

/-- `s.split(',')` on the underlying characters: comma-separated chunks,
with `[[]]` for the empty string — Python's `''.split(',') == ['']`. -/
def splitComma : List Char → List (List Char)
  | [] => [[]]
  | c :: rest =>
    if c = ',' then [] :: splitComma rest
    else
      match splitComma rest with
      | [] => [[c]]
      | x :: xs => (c :: x) :: xs

/-- The comma-separated tokens of a raw query-parameter string. -/
def commaTokens (s : String) : List String :=
  (splitComma s.data).map (fun cs => String.mk cs)

/-- A nonempty all-digit character list parsed as a natural number;
`none` otherwise. -/
def parseNatDigits (cs : List Char) : Option Nat :=
  if cs ≠ [] ∧ cs.all (fun c => c.isDigit) then some (digitsToNat cs) else none

/-- Python's built-in `int(s)` on a string: surrounding whitespace is
stripped, an optional single sign precedes a nonempty digit sequence; any
other shape raises `ValueError`. (Digit-grouping underscores are not
modelled; no claim depends on them.) -/
def pythonInt (s : String) : Except PyErr Int :=
  match trimChars s.data with
  | '-' :: rest =>
    match parseNatDigits rest with
    | some n => .ok (-(n : Int))
    | none => .error (.valueError s)
  | '+' :: rest =>
    match parseNatDigits rest with
    | some n => .ok (n : Int)
    | none => .error (.valueError s)
  | cs =>
    match parseNatDigits cs with
    | some n => .ok (n : Int)
    | none => .error (.valueError s)

/-- The exception-propagating list comprehension
`[int(str_id) for str_id in ...]`: the first failing conversion raises. -/
def mapPythonInt : List String → Except PyErr (List Int)
  | [] => .ok []
  | x :: xs =>
    match pythonInt x with
    | .error e => .error e
    | .ok n =>
      match mapPythonInt xs with
      | .error e => .error e
      | .ok ns => .ok (n :: ns)

/-- `RecipeViewSet.params_to_int`: split the raw query string on commas and
convert every token with `int`. -/
def params_to_int (qs : String) : Except PyErr (List Int) :=
  mapPythonInt (commaTokens qs)

/-- A row of the `Recipe` table: owner, linked tag ids and ingredient ids
(many-to-many), and the optional image field. -/
structure Recipe where
  id : Int
  user : Int
  tags : List Int
  ingredients : List Int
  image : Option String
deriving DecidableEq, Repr

/-- A row of the `Tag` or `Ingredient` table: both carry an id, an owner and
a name, which is all this layer reads. -/
structure AttrRow where
  id : Int
  user : Int
  name : String
deriving DecidableEq, Repr

/-- The ORM filter `tags__id__in=ids` / `ingredients__id__in=ids`: an inner
join against the link table, producing one output row per (recipe, matching
linked id) pair — duplicates appear when a recipe matches several ids, which
is why the source ends with `.distinct()`. -/
def filterIdIn (proj : Recipe → List Int) (ids : List Int) (l : List Recipe) :
    List Recipe :=
  l.flatMap (fun r => ((proj r).filter (fun t => decide (t ∈ ids))).map (fun _ => r))

/-- The ORM filter `recipe__isnull=False` on a tag/ingredient queryset: an
inner join against the recipes referencing the row, one output row per
referencing recipe. `refs` projects a recipe to the linked attribute ids
(`Recipe.tags` for tags, `Recipe.ingredients` for ingredients). -/
def filterAssigned (recipes : List Recipe) (refs : Recipe → List Int)
    (l : List AttrRow) : List AttrRow :=
  l.flatMap (fun a => (recipes.filter (fun r => decide (a.id ∈ refs r))).map (fun _ => a))

/-- Insert into a list kept sorted in descending `key` order. -/
def insertDescBy {α β : Type} [LinearOrder β] (key : α → β) (x : α) :
    List α → List α
  | [] => [x]
  | y :: ys => if key x ≤ key y then y :: insertDescBy key x ys else x :: y :: ys

/-- `order_by('-k')`: sort in descending `key` order (insertion sort). -/
def sortDescBy {α β : Type} [LinearOrder β] (key : α → β) : List α → List α
  | [] => []
  | x :: xs => insertDescBy key x (sortDescBy key xs)

/-- One optional comma-separated id filter of `RecipeViewSet.get_queryset`:
`if tags: qs = qs.filter(tags__id__in=self.params_to_int(tags))` — a `None`
or empty parameter is falsy and leaves the queryset unchanged; a nonempty one
is converted (possibly raising) and applied as a join filter. -/
def apply_id_filter (proj : Recipe → List Int) (param : Option String)
    (qs : List Recipe) : Except PyErr (List Recipe) :=
  match param with
  | none => .ok qs
  | some s =>
    if s = "" then .ok qs
    else
      match params_to_int s with
      | .ok ids => .ok (filterIdIn proj ids qs)
      | .error e => .error e

/-- A recipe list request: the authenticated user and the raw `tags` /
`ingredients` query parameters (absent or the raw string). -/
structure RecipeListRequest where
  user : Int
  tags : Option String
  ingredients : Option String
deriving DecidableEq, Repr

/-- `RecipeViewSet.get_queryset`: apply the optional `tags` filter, then the
optional `ingredients` filter, then
`qs.filter(user=self.request.user).order_by('-id').distinct()`.
An uncaught `ValueError` from the conversion propagates out. -/
def recipe_get_queryset (db : List Recipe) (req : RecipeListRequest) :
    Except PyErr (List Recipe) :=
  match apply_id_filter Recipe.tags req.tags db with
  | .error e => .error e
  | .ok qs1 =>
    match apply_id_filter Recipe.ingredients req.ingredients qs1 with
    | .error e => .error e
    | .ok qs2 =>
      .ok (sortDescBy Recipe.id
        ((qs2.filter (fun r => decide (r.user = req.user))).dedup))

/-- HTTP status of a recipe list request: 200 when the queryset is built and
rendered, 500 when an exception escapes `get_queryset` unhandled (the
framework converts an uncaught exception into a server error). -/
def recipe_list_status (db : List Recipe) (req : RecipeListRequest) : Nat :=
  match recipe_get_queryset db req with
  | .ok _ => 200
  | .error _ => 500

/-- `bool(int(self.request.query_params.get('assigned_only', 0)))`: an absent
parameter defaults to the integer `0` (so `bool` gives `false`); a present
one is converted with `int` (possibly raising) and tested for nonzero. -/
def assigned_only_flag (p : Option String) : Except PyErr Bool :=
  match p with
  | none => .ok false
  | some s =>
    match pythonInt s with
    | .ok n => .ok (decide (n ≠ 0))
    | .error e => .error e

/-- A tag/ingredient list request: the authenticated user and the raw
`assigned_only` query parameter. -/
structure AttrListRequest where
  user : Int
  assigned_only : Option String
deriving DecidableEq, Repr

/-- `BaseRecipeAttrViewSet.get_queryset`: parse `assigned_only`; when truthy,
restrict to rows referenced by at least one recipe
(`recipe__isnull=False`); then
`qs.filter(user=self.request.user).order_by('-name').distinct()`. -/
def base_attr_get_queryset (rows : List AttrRow) (recipes : List Recipe)
    (refs : Recipe → List Int) (req : AttrListRequest) :
    Except PyErr (List AttrRow) :=
  match assigned_only_flag req.assigned_only with
  | .error e => .error e
  | .ok flag =>
    let qs := if flag then filterAssigned recipes refs rows else rows
    .ok (sortDescBy AttrRow.name
      ((qs.filter (fun a => decide (a.user = req.user))).dedup))

/-- `TagViewSet`: binds the attribute base to the `Tag` table, whose rows are
referenced through `Recipe.tags`. -/
def tag_get_queryset (rows : List AttrRow) (recipes : List Recipe)
    (req : AttrListRequest) : Except PyErr (List AttrRow) :=
  base_attr_get_queryset rows recipes Recipe.tags req

/-- `IngredientViewSet`: binds the attribute base to the `Ingredient` table,
whose rows are referenced through `Recipe.ingredients`. -/
def ingredient_get_queryset (rows : List AttrRow) (recipes : List Recipe)
    (req : AttrListRequest) : Except PyErr (List AttrRow) :=
  base_attr_get_queryset rows recipes Recipe.ingredients req

/-- HTTP status of a tag/ingredient list request: 200 on success, 500 when
the conversion exception escapes `get_queryset` unhandled. -/
def attr_list_status (rows : List AttrRow) (recipes : List Recipe)
    (refs : Recipe → List Int) (req : AttrListRequest) : Nat :=
  match base_attr_get_queryset rows recipes refs req with
  | .ok _ => 200
  | .error _ => 500

/-- A 4xx status. -/
def isClientError (status : Nat) : Prop := 400 ≤ status ∧ status < 500

instance (status : Nat) : Decidable (isClientError status) := by
  unfold isClientError; infer_instance

/-! ### Helper lemmas -/

lemma mem_filterIdIn {proj : Recipe → List Int} {ids : List Int}
    {l : List Recipe} {r : Recipe} :
    r ∈ filterIdIn proj ids l ↔ r ∈ l ∧ ∃ t, t ∈ proj r ∧ t ∈ ids := by
  simp only [filterIdIn, List.mem_flatMap, List.mem_map, List.mem_filter,
    decide_eq_true_eq]
  constructor
  · rintro ⟨a, ha, t, ⟨ht1, ht2⟩, rfl⟩
    exact ⟨ha, t, ht1, ht2⟩
  · rintro ⟨hr, t, ht1, ht2⟩
    exact ⟨r, hr, t, ⟨ht1, ht2⟩, rfl⟩

lemma mem_filterAssigned {recipes : List Recipe} {refs : Recipe → List Int}
    {l : List AttrRow} {a : AttrRow} :
    a ∈ filterAssigned recipes refs l ↔ a ∈ l ∧ ∃ r ∈ recipes, a.id ∈ refs r := by
  simp only [filterAssigned, List.mem_flatMap, List.mem_map, List.mem_filter,
    decide_eq_true_eq]
  constructor
  · rintro ⟨b, hb, r, ⟨hr1, hr2⟩, rfl⟩
    exact ⟨hb, r, hr1, hr2⟩
  · rintro ⟨hb, r, hr1, hr2⟩
    exact ⟨a, hb, r, ⟨hr1, hr2⟩, rfl⟩

lemma perm_insertDescBy {α β : Type} [LinearOrder β] (key : α → β) (x : α)
    (l : List α) : List.Perm (insertDescBy key x l) (x :: l) := by
  induction l with
  | nil => exact List.Perm.refl _
  | cons y ys ih =>
    rw [insertDescBy]
    split
    · exact (ih.cons y).trans (List.Perm.swap x y ys)
    · exact List.Perm.refl _

lemma perm_sortDescBy {α β : Type} [LinearOrder β] (key : α → β)
    (l : List α) : List.Perm (sortDescBy key l) l := by
  induction l with
  | nil => exact List.Perm.refl _
  | cons x xs ih => exact (perm_insertDescBy key x _).trans (ih.cons x)

lemma mem_sortDescBy {α β : Type} [LinearOrder β] {key : α → β}
    {l : List α} {a : α} : a ∈ sortDescBy key l ↔ a ∈ l :=
  (perm_sortDescBy key l).mem_iff

lemma pairwise_insertDescBy {α β : Type} [LinearOrder β] {key : α → β}
    {x : α} {l : List α}
    (h : l.Pairwise (fun a b => key b ≤ key a)) :
    (insertDescBy key x l).Pairwise (fun a b => key b ≤ key a) := by
  induction l with
  | nil => simp [insertDescBy]
  | cons y ys ih =>
    rw [insertDescBy]
    rw [List.pairwise_cons] at h
    split
    · rename_i hxy
      rw [List.pairwise_cons]
      refine ⟨fun z hz => ?_, ih h.2⟩
      rcases List.mem_cons.mp ((perm_insertDescBy key x ys).mem_iff.mp hz) with rfl | hz
      · exact hxy
      · exact h.1 z hz
    · rename_i hxy
      push_neg at hxy
      rw [List.pairwise_cons]
      refine ⟨fun z hz => ?_, List.pairwise_cons.mpr h⟩
      rcases List.mem_cons.mp hz with rfl | hz
      · exact hxy.le
      · exact (h.1 z hz).trans hxy.le

lemma pairwise_sortDescBy {α β : Type} [LinearOrder β] (key : α → β)
    (l : List α) :
    (sortDescBy key l).Pairwise (fun a b => key b ≤ key a) := by
  induction l with
  | nil => simp [sortDescBy]
  | cons x xs ih => exact pairwise_insertDescBy ih

lemma nodup_sortDescBy_dedup {α β : Type} [DecidableEq α] [LinearOrder β]
    (key : α → β) (l : List α) : (sortDescBy key l.dedup).Nodup :=
  ((perm_sortDescBy key l.dedup).nodup_iff).mpr (List.nodup_dedup l)

lemma mem_sort_dedup_filter {α β : Type} [DecidableEq α] [LinearOrder β]
    {key : α → β} {p : α → Bool} {l : List α} {a : α} :
    a ∈ sortDescBy key (l.filter p).dedup ↔ a ∈ l ∧ p a = true := by
  rw [mem_sortDescBy, List.mem_dedup, List.mem_filter]

/-- What a present id filter means for a row: an absent or empty parameter is
no constraint; a nonempty one requires the conversion to succeed and the row
to be linked to at least one listed id. -/
def id_param_matches (param : Option String) (linked : List Int) : Prop :=
  match param with
  | none => True
  | some s =>
    s = "" ∨ ∃ ids, params_to_int s = Except.ok ids ∧ ∃ t, t ∈ linked ∧ t ∈ ids

lemma apply_id_filter_ok_mem {proj : Recipe → List Int} {param : Option String}
    {qs out : List Recipe} (h : apply_id_filter proj param qs = Except.ok out)
    (r : Recipe) :
    r ∈ out ↔ r ∈ qs ∧ id_param_matches param (proj r) := by
  cases param with
  | none =>
    simp only [apply_id_filter, Except.ok.injEq] at h
    subst h
    simp [id_param_matches]
  | some s =>
    by_cases hs : s = ""
    · simp only [apply_id_filter] at h
      rw [if_pos hs, Except.ok.injEq] at h
      subst h
      simp [id_param_matches, hs]
    · cases hp : params_to_int s with
      | error e =>
        simp only [apply_id_filter, if_neg hs, hp] at h
        exact Except.noConfusion h
      | ok ids =>
        simp only [apply_id_filter, if_neg hs, hp, Except.ok.injEq] at h
        subst h
        rw [mem_filterIdIn]
        simp only [id_param_matches]
        constructor
        · rintro ⟨hr, t, ht1, ht2⟩
          exact ⟨hr, Or.inr ⟨ids, hp, t, ht1, ht2⟩⟩
        · rintro ⟨hr, h2 | ⟨ids2, hids2, t, ht1, ht2⟩⟩
          · exact absurd h2 hs
          · rw [hp, Except.ok.injEq] at hids2
            subst hids2
            exact ⟨hr, t, ht1, ht2⟩

lemma mapPythonInt_error {l : List String} {tok : String} {e0 : PyErr}
    (htok : tok ∈ l) (he : pythonInt tok = Except.error e0) :
    ∃ e, mapPythonInt l = Except.error e := by
  induction l with
  | nil => cases htok
  | cons x xs ih =>
    rcases List.mem_cons.mp htok with rfl | htok
    · exact ⟨e0, by simp [mapPythonInt, he]⟩
    · cases hx : pythonInt x with
      | error e => exact ⟨e, by simp [mapPythonInt, hx]⟩
      | ok n =>
        obtain ⟨e, hxs⟩ := ih htok
        exact ⟨e, by simp [mapPythonInt, hx, hxs]⟩

lemma params_to_int_error {s tok : String} {e0 : PyErr}
    (htok : tok ∈ commaTokens s) (he : pythonInt tok = Except.error e0) :
    ∃ e, params_to_int s = Except.error e :=
  mapPythonInt_error htok he

lemma recipe_get_queryset_eq_ok {db : List Recipe} {req : RecipeListRequest}
    {qs1 qs2 : List Recipe}
    (h1 : apply_id_filter Recipe.tags req.tags db = Except.ok qs1)
    (h2 : apply_id_filter Recipe.ingredients req.ingredients qs1 = Except.ok qs2) :
    recipe_get_queryset db req =
      Except.ok (sortDescBy Recipe.id
        ((qs2.filter (fun r => decide (r.user = req.user))).dedup)) := by
  unfold recipe_get_queryset
  rw [h1]
  dsimp only
  rw [h2]

lemma recipe_get_queryset_eq_error_tags {db : List Recipe}
    {req : RecipeListRequest} {e : PyErr}
    (h1 : apply_id_filter Recipe.tags req.tags db = Except.error e) :
    recipe_get_queryset db req = Except.error e := by
  unfold recipe_get_queryset
  rw [h1]

lemma recipe_get_queryset_eq_error_ing {db : List Recipe}
    {req : RecipeListRequest} {qs1 : List Recipe} {e : PyErr}
    (h1 : apply_id_filter Recipe.tags req.tags db = Except.ok qs1)
    (h2 : apply_id_filter Recipe.ingredients req.ingredients qs1 = Except.error e) :
    recipe_get_queryset db req = Except.error e := by
  unfold recipe_get_queryset
  rw [h1]
  dsimp only
  rw [h2]

lemma recipe_get_queryset_ok_mem {db : List Recipe} {req : RecipeListRequest}
    {qs : List Recipe} (h : recipe_get_queryset db req = Except.ok qs)
    (r : Recipe) :
    r ∈ qs ↔ r ∈ db ∧ r.user = req.user ∧
      id_param_matches req.tags r.tags ∧
      id_param_matches req.ingredients r.ingredients := by
  cases h1 : apply_id_filter Recipe.tags req.tags db with
  | error e => rw [recipe_get_queryset_eq_error_tags h1] at h
               exact Except.noConfusion h
  | ok qs1 =>
    cases h2 : apply_id_filter Recipe.ingredients req.ingredients qs1 with
    | error e => rw [recipe_get_queryset_eq_error_ing h1 h2] at h
                 exact Except.noConfusion h
    | ok qs2 =>
      rw [recipe_get_queryset_eq_ok h1 h2, Except.ok.injEq] at h
      subst h
      rw [mem_sort_dedup_filter, apply_id_filter_ok_mem h2 r,
        apply_id_filter_ok_mem h1 r, decide_eq_true_eq]
      tauto

lemma recipe_get_queryset_ok_sorted {db : List Recipe}
    {req : RecipeListRequest} {qs : List Recipe}
    (h : recipe_get_queryset db req = Except.ok qs) :
    qs.Pairwise (fun a b => b.id ≤ a.id) ∧ qs.Nodup := by
  cases h1 : apply_id_filter Recipe.tags req.tags db with
  | error e => rw [recipe_get_queryset_eq_error_tags h1] at h
               exact Except.noConfusion h
  | ok qs1 =>
    cases h2 : apply_id_filter Recipe.ingredients req.ingredients qs1 with
    | error e => rw [recipe_get_queryset_eq_error_ing h1 h2] at h
                 exact Except.noConfusion h
    | ok qs2 =>
      rw [recipe_get_queryset_eq_ok h1 h2, Except.ok.injEq] at h
      subst h
      exact ⟨pairwise_sortDescBy _ _, nodup_sortDescBy_dedup _ _⟩

lemma base_attr_get_queryset_eq_ok {rows : List AttrRow}
    {recipes : List Recipe} {refs : Recipe → List Int}
    {req : AttrListRequest} {flag : Bool}
    (hf : assigned_only_flag req.assigned_only = Except.ok flag) :
    base_attr_get_queryset rows recipes refs req =
      Except.ok (sortDescBy AttrRow.name
        (((if flag then filterAssigned recipes refs rows else rows).filter
          (fun a => decide (a.user = req.user))).dedup)) := by
  unfold base_attr_get_queryset
  rw [hf]

lemma base_attr_get_queryset_eq_error {rows : List AttrRow}
    {recipes : List Recipe} {refs : Recipe → List Int}
    {req : AttrListRequest} {e : PyErr}
    (hf : assigned_only_flag req.assigned_only = Except.error e) :
    base_attr_get_queryset rows recipes refs req = Except.error e := by
  unfold base_attr_get_queryset
  rw [hf]

lemma base_attr_get_queryset_ok_mem {rows : List AttrRow}
    {recipes : List Recipe} {refs : Recipe → List Int}
    {req : AttrListRequest} {qs : List AttrRow}
    (h : base_attr_get_queryset rows recipes refs req = Except.ok qs)
    (a : AttrRow) :
    a ∈ qs ↔ a ∈ rows ∧ a.user = req.user ∧
      (assigned_only_flag req.assigned_only = Except.ok true →
        ∃ r ∈ recipes, a.id ∈ refs r) := by
  cases hf : assigned_only_flag req.assigned_only with
  | error e => rw [base_attr_get_queryset_eq_error hf] at h
               exact Except.noConfusion h
  | ok flag =>
    rw [base_attr_get_queryset_eq_ok hf, Except.ok.injEq] at h
    subst h
    cases flag with
    | false =>
      rw [if_neg (by simp)]
      rw [mem_sort_dedup_filter, decide_eq_true_eq]
      constructor
      · rintro ⟨h1, h2⟩
        exact ⟨h1, h2, fun hT => absurd (Except.ok.inj hT) Bool.false_ne_true⟩
      · rintro ⟨h1, h2, _⟩
        exact ⟨h1, h2⟩
    | true =>
      rw [if_pos rfl]
      rw [mem_sort_dedup_filter, mem_filterAssigned, decide_eq_true_eq]
      constructor
      · rintro ⟨⟨h1, h2⟩, h3⟩
        exact ⟨h1, h3, fun _ => h2⟩
      · rintro ⟨h1, h3, h2⟩
        exact ⟨⟨h1, h2 rfl⟩, h3⟩

lemma base_attr_get_queryset_ok_sorted {rows : List AttrRow}
    {recipes : List Recipe} {refs : Recipe → List Int}
    {req : AttrListRequest} {qs : List AttrRow}
    (h : base_attr_get_queryset rows recipes refs req = Except.ok qs) :
    qs.Pairwise (fun a b => b.name ≤ a.name) ∧ qs.Nodup := by
  cases hf : assigned_only_flag req.assigned_only with
  | error e => rw [base_attr_get_queryset_eq_error hf] at h
               exact Except.noConfusion h
  | ok flag =>
    rw [base_attr_get_queryset_eq_ok hf, Except.ok.injEq] at h
    subst h
    exact ⟨pairwise_sortDescBy _ _, nodup_sortDescBy_dedup _ _⟩

/-! ### Image upload (`RecipeViewSet.upload_image`) and creation
(`RecipeViewSet.perform_create`).

`recipe/serializers.py` is not part of the sources, so the image-only
serializer is kept abstract: it is any `ImageSerializer`, i.e. a validation
predicate together with the validated image value and the per-field error
messages — exactly the three members the view reads (`is_valid`,
`save`-time validated data, `errors`). -/

/-- The body of an upload request as the view sees it (`request.data`):
the optional `image` field. -/
structure ImagePayload where
  image : Option String
deriving DecidableEq, Repr

/-- Modelled from the spec: the image-only schema
(`RecipeImageSerializer`, not under the provided sources) re-validates the
record against the submitted payload; the model keeps it abstract as a
validation predicate, the validated image value used on save, and the
structured per-field error messages returned on failure. -/
structure ImageSerializer where
  is_valid : ImagePayload → Bool
  validated_image : ImagePayload → Option String
  errors : ImagePayload → List (String × String)

/-- Modelled from the spec: the serialized representation produced by the
image-only schema — the record's id and image field. -/
structure ImageRepr where
  id : Int
  image : Option String
deriving DecidableEq, Repr

/-- The body of the upload-image response: the updated representation on
success, the serializer's per-field error messages on failure. -/
inductive UploadBody where
  | success (data : ImageRepr)
  | failure (errors : List (String × String))
deriving DecidableEq, Repr

/-- `serializer.save()` on the instance: the record with its image field
replaced by the validated value, persisted into the table in place. -/
def save_image (db : List Recipe) (updated : Recipe) : List Recipe :=
  db.map (fun r => if r.id = updated.id then updated else r)

/-- `RecipeViewSet.upload_image`: validate the existing record against the
image-only serializer; if valid, save and respond 200 with the serialized
record; otherwise respond 400 with the field errors. Returns
(status, body, table after the request). -/
def upload_image (ser : ImageSerializer) (db : List Recipe) (recipe : Recipe)
    (payload : ImagePayload) : Nat × UploadBody × List Recipe :=
  if ser.is_valid payload then
    let updated : Recipe := { recipe with image := ser.validated_image payload }
    (200, UploadBody.success ⟨updated.id, updated.image⟩, save_image db updated)
  else
    (400, UploadBody.failure (ser.errors payload), db)

/-- The validated payload of a recipe create request; the serializer may or
may not have a user value in its validated data (`user` is the field the
claim says the client cannot control). -/
structure RecipePayload where
  user : Option Int
  tags : List Int
  ingredients : List Int
deriving DecidableEq, Repr

/-- Modelled from the spec: `serializer.save(**kwargs)` for a create (the
recipe serializer itself, `recipe/serializers.py`, is not under the provided
sources) — the keyword arguments are merged over the validated data, so a
`user` keyword argument takes precedence over any user value in the payload;
a row cannot be created with no user at all (the column is non-null). -/
def serializer_save (validated : RecipePayload) (kwargs_user : Option Int)
    (newId : Int) : Option Recipe :=
  match kwargs_user.orElse (fun _ => validated.user) with
  | some u => some ⟨newId, u, validated.tags, validated.ingredients, none⟩
  | none => none

/-- `RecipeViewSet.perform_create`:
`serializer.save(user=self.request.user)`. -/
def perform_create (request_user : Int) (validated : RecipePayload)
    (newId : Int) : Option Recipe :=
  serializer_save validated (some request_user) newId

/-! ### Further helper lemmas for the claim theorems -/

lemma id_param_matches_imp {param : Option String} {linked : List Int}
    (hm : id_param_matches param linked) :
    ∀ s ids, param = some s → s ≠ "" → params_to_int s = Except.ok ids →
      ∃ t ∈ ids, t ∈ linked := by
  intro s ids hp hs hids
  subst hp
  simp only [id_param_matches] at hm
  rcases hm with h | ⟨ids2, hids2, t, ht1, ht2⟩
  · exact absurd h hs
  · rw [hids, Except.ok.injEq] at hids2
    subst hids2
    exact ⟨t, ht2, ht1⟩

lemma apply_id_filter_ok_parse {proj : Recipe → List Int} {s : String}
    {qs out : List Recipe}
    (h : apply_id_filter proj (some s) qs = Except.ok out) (hs : s ≠ "") :
    ∃ ids, params_to_int s = Except.ok ids := by
  cases hp : params_to_int s with
  | ok ids => exact ⟨ids, rfl⟩
  | error e =>
    simp only [apply_id_filter, if_neg hs, hp] at h
    exact Except.noConfusion h

lemma recipe_get_queryset_ok_parse_ing {db : List Recipe}
    {req : RecipeListRequest} {qs : List Recipe}
    (h : recipe_get_queryset db req = Except.ok qs) :
    ∀ s, req.ingredients = some s → s ≠ "" →
      ∃ ids, params_to_int s = Except.ok ids := by
  intro s hing hs
  cases h1 : apply_id_filter Recipe.tags req.tags db with
  | error e => rw [recipe_get_queryset_eq_error_tags h1] at h
               exact Except.noConfusion h
  | ok qs1 =>
    cases h2 : apply_id_filter Recipe.ingredients req.ingredients qs1 with
    | error e => rw [recipe_get_queryset_eq_error_ing h1 h2] at h
                 exact Except.noConfusion h
    | ok qs2 =>
      rw [hing] at h2
      exact apply_id_filter_ok_parse h2 hs

lemma recipe_list_status_error_tags (db : List Recipe) (u : Int)
    {s tok : String} {e0 : PyErr} (ing : Option String) (hs : s ≠ "")
    (htok : tok ∈ commaTokens s) (he : pythonInt tok = Except.error e0) :
    (∃ e, recipe_get_queryset db ⟨u, some s, ing⟩ = Except.error e) ∧
    recipe_list_status db ⟨u, some s, ing⟩ = 500 := by
  obtain ⟨e, hperr⟩ := params_to_int_error htok he
  have h1 : apply_id_filter Recipe.tags (some s) db = Except.error e := by
    simp only [apply_id_filter, if_neg hs, hperr]
  have hq : recipe_get_queryset db ⟨u, some s, ing⟩ = Except.error e :=
    recipe_get_queryset_eq_error_tags h1
  refine ⟨⟨e, hq⟩, ?_⟩
  unfold recipe_list_status
  rw [hq]

lemma recipe_list_status_error_ing (db : List Recipe) (u : Int)
    (tp : Option String) {s tok : String} {e0 : PyErr} (hs : s ≠ "")
    (htok : tok ∈ commaTokens s) (he : pythonInt tok = Except.error e0) :
    (∃ e, recipe_get_queryset db ⟨u, tp, some s⟩ = Except.error e) ∧
    recipe_list_status db ⟨u, tp, some s⟩ = 500 := by
  obtain ⟨e, hperr⟩ := params_to_int_error htok he
  cases h1 : apply_id_filter Recipe.tags tp db with
  | error e2 =>
    have hq : recipe_get_queryset db ⟨u, tp, some s⟩ = Except.error e2 :=
      recipe_get_queryset_eq_error_tags h1
    refine ⟨⟨e2, hq⟩, ?_⟩
    unfold recipe_list_status
    rw [hq]
  | ok qs1 =>
    have h2 : apply_id_filter Recipe.ingredients (some s) qs1 = Except.error e := by
      simp only [apply_id_filter, if_neg hs, hperr]
    have hq : recipe_get_queryset db ⟨u, tp, some s⟩ = Except.error e :=
      recipe_get_queryset_eq_error_ing h1 h2
    refine ⟨⟨e, hq⟩, ?_⟩
    unfold recipe_list_status
    rw [hq]

/-! ### Claim theorems -/

/-- C1: every queryset produced by `RecipeViewSet.get_queryset` or
`BaseRecipeAttrViewSet.get_queryset` contains only rows whose user field
equals the requesting user; hence rows owned by any other user never appear
in the list results. -/
theorem C1_user_scoped_querysets
    (db : List Recipe) (rows : List AttrRow) (recipes : List Recipe)
    (refs : Recipe → List Int) (rreq : RecipeListRequest)
    (areq : AttrListRequest) (rqs : List Recipe) (aqs : List AttrRow)
    (hr : recipe_get_queryset db rreq = Except.ok rqs)
    (ha : base_attr_get_queryset rows recipes refs areq = Except.ok aqs) :
    (∀ r ∈ rqs, r.user = rreq.user) ∧ (∀ a ∈ aqs, a.user = areq.user) ∧
    (∀ u1 r, u1 ≠ rreq.user → r ∈ rqs → r.user ≠ u1) ∧
    (∀ u1 a, u1 ≠ areq.user → a ∈ aqs → a.user ≠ u1) := by
  have h1 : ∀ r ∈ rqs, r.user = rreq.user := fun r hrr =>
    ((recipe_get_queryset_ok_mem hr r).mp hrr).2.1
  have h2 : ∀ a ∈ aqs, a.user = areq.user := fun a haa =>
    ((base_attr_get_queryset_ok_mem ha a).mp haa).2.1
  refine ⟨h1, h2, ?_, ?_⟩
  · intro u1 r hu hrr heq
    exact hu (((h1 r hrr).symm.trans heq).symm)
  · intro u1 a hu haa heq
    exact hu (((h2 a haa).symm.trans heq).symm)

/-- Witness for C1 at a concrete two-user database: user 1's list request
sees exactly user 1's rows. -/
theorem C1_user_scoped_querysets_witness :
    (recipe_get_queryset [⟨1, 1, [], [], none⟩, ⟨2, 2, [], [], none⟩]
      ⟨1, none, none⟩ = Except.ok [⟨1, 1, [], [], none⟩]) ∧
    (base_attr_get_queryset [⟨1, 1, "a"⟩, ⟨2, 2, "b"⟩] [] Recipe.tags
      ⟨1, none⟩ = Except.ok [⟨1, 1, "a"⟩]) ∧
    ((∀ r ∈ [(⟨1, 1, [], [], none⟩ : Recipe)],
        r.user = (⟨1, none, none⟩ : RecipeListRequest).user) ∧
      (∀ a ∈ [(⟨1, 1, "a"⟩ : AttrRow)],
        a.user = (⟨1, none⟩ : AttrListRequest).user) ∧
      (∀ u1 r, u1 ≠ (⟨1, none, none⟩ : RecipeListRequest).user →
        r ∈ [(⟨1, 1, [], [], none⟩ : Recipe)] → r.user ≠ u1) ∧
      (∀ u1 a, u1 ≠ (⟨1, none⟩ : AttrListRequest).user →
        a ∈ [(⟨1, 1, "a"⟩ : AttrRow)] → a.user ≠ u1)) :=
  ⟨by decide, by decide,
    C1_user_scoped_querysets [⟨1, 1, [], [], none⟩, ⟨2, 2, [], [], none⟩]
      [⟨1, 1, "a"⟩, ⟨2, 2, "b"⟩] [] Recipe.tags ⟨1, none, none⟩ ⟨1, none⟩
      [⟨1, 1, [], [], none⟩] [⟨1, 1, "a"⟩] (by decide) (by decide)⟩

/-- C2: with a nonempty, successfully converted `tags` parameter, the recipe
list result is exactly the requesting user's recipes linked to at least one
listed tag id (OR within the list), further intersected with the
`ingredients` filter when one is given (AND across filters), each recipe
appearing at most once. -/
theorem C2_recipe_filter_exact
    (db : List Recipe) (u : Int) (ts : String) (ing : Option String)
    (tagIds : List Int) (qs : List Recipe)
    (hts : ts ≠ "") (hids : params_to_int ts = Except.ok tagIds)
    (h : recipe_get_queryset db ⟨u, some ts, ing⟩ = Except.ok qs) :
    qs.Nodup ∧
    ∀ r, r ∈ qs ↔ r ∈ db ∧ r.user = u ∧ (∃ t ∈ tagIds, t ∈ r.tags) ∧
      (∀ is2 ingIds, ing = some is2 → is2 ≠ "" →
        params_to_int is2 = Except.ok ingIds → ∃ t ∈ ingIds, t ∈ r.ingredients) := by
  refine ⟨(recipe_get_queryset_ok_sorted h).2, fun r => ?_⟩
  rw [recipe_get_queryset_ok_mem h r]
  constructor
  · rintro ⟨h1, h2, h3, h4⟩
    refine ⟨h1, h2, ?_, ?_⟩
    · exact id_param_matches_imp h3 ts tagIds rfl hts hids
    · intro is2 ingIds hing his2 hids2
      exact id_param_matches_imp h4 is2 ingIds hing his2 hids2
  · rintro ⟨h1, h2, ⟨t, ht1, ht2⟩, h4⟩
    refine ⟨h1, h2, Or.inr ⟨tagIds, hids, t, ht2, ht1⟩, ?_⟩
    cases hing : ing with
    | none => simp [id_param_matches]
    | some is2 =>
      by_cases his2 : is2 = ""
      · exact Or.inl his2
      · obtain ⟨ingIds, hids2⟩ :=
          recipe_get_queryset_ok_parse_ing h is2 (by rw [hing]) his2
        obtain ⟨t2, h5, h6⟩ := h4 is2 ingIds hing his2 hids2
        exact Or.inr ⟨ingIds, hids2, t2, h6, h5⟩

/-- Witness for C2: filtering by `tags=1,2` over a three-recipe database
returns exactly the one matching recipe of user 1, once, even though it
carries both listed tags. -/
theorem C2_recipe_filter_exact_witness :
    ("1,2" : String) ≠ "" ∧
    params_to_int "1,2" = Except.ok [1, 2] ∧
    (recipe_get_queryset
      [⟨1, 1, [1, 2], [], none⟩, ⟨2, 1, [3], [], none⟩, ⟨3, 2, [1], [], none⟩]
      ⟨1, some "1,2", none⟩ = Except.ok [⟨1, 1, [1, 2], [], none⟩]) ∧
    ([(⟨1, 1, [1, 2], [], none⟩ : Recipe)].Nodup ∧
      ∀ r, r ∈ [(⟨1, 1, [1, 2], [], none⟩ : Recipe)] ↔
        r ∈ [(⟨1, 1, [1, 2], [], none⟩ : Recipe), ⟨2, 1, [3], [], none⟩,
          ⟨3, 2, [1], [], none⟩] ∧
        r.user = 1 ∧ (∃ t ∈ [(1 : Int), 2], t ∈ r.tags) ∧
        (∀ is2 ingIds, (none : Option String) = some is2 → is2 ≠ "" →
          params_to_int is2 = Except.ok ingIds →
            ∃ t ∈ ingIds, t ∈ r.ingredients)) :=
  ⟨by decide, by decide, by decide,
    C2_recipe_filter_exact
      [⟨1, 1, [1, 2], [], none⟩, ⟨2, 1, [3], [], none⟩, ⟨3, 2, [1], [], none⟩]
      1 "1,2" none [1, 2] [⟨1, 1, [1, 2], [], none⟩]
      (by decide) (by decide) (by decide)⟩

/-- C3 counterexample: the claim says a recipe list request with a
non-integer token in `tags` fails with a client error (4xx); at the concrete
request `tags=abc` the conversion failure propagates and the status is 500,
which is not in the 4xx range. -/
theorem C3_counterexample :
    recipe_list_status [] ⟨1, some "abc", none⟩ = 500 ∧
    ¬ isClientError (recipe_list_status [] ⟨1, some "abc", none⟩) := by
  decide

/-- C3 as amended: a recipe list request whose nonempty `tags` or
`ingredients` parameter contains a non-integer token fails at the
string-to-integer conversion step with an unhandled error surfacing as a
server error (500), not a 4xx client error. -/
theorem C3_amended_conversion_server_error
    (db : List Recipe) (u : Int) (s tok : String) (e0 : PyErr)
    (ing tp : Option String) (hs : s ≠ "") (htok : tok ∈ commaTokens s)
    (he : pythonInt tok = Except.error e0) :
    (recipe_list_status db ⟨u, some s, ing⟩ = 500 ∧
      ¬ isClientError (recipe_list_status db ⟨u, some s, ing⟩)) ∧
    (recipe_list_status db ⟨u, tp, some s⟩ = 500 ∧
      ¬ isClientError (recipe_list_status db ⟨u, tp, some s⟩)) := by
  obtain ⟨-, h1⟩ := recipe_list_status_error_tags db u ing hs htok he
  obtain ⟨-, h2⟩ := recipe_list_status_error_ing db u tp hs htok he
  rw [h1, h2]
  exact ⟨⟨rfl, by decide⟩, ⟨rfl, by decide⟩⟩

/-- Witness for the amended C3 at the concrete requests `tags=x,y` and
`tags=1&ingredients=x,y` (a valid tags parameter next to the bad
ingredients one). -/
theorem C3_amended_conversion_server_error_witness :
    ("x,y" : String) ≠ "" ∧ "x" ∈ commaTokens "x,y" ∧
    pythonInt "x" = Except.error (.valueError "x") ∧
    ((recipe_list_status [] ⟨7, some "x,y", none⟩ = 500 ∧
      ¬ isClientError (recipe_list_status [] ⟨7, some "x,y", none⟩)) ∧
    (recipe_list_status [] ⟨7, some "1", some "x,y"⟩ = 500 ∧
      ¬ isClientError (recipe_list_status [] ⟨7, some "1", some "x,y"⟩))) :=
  ⟨by decide, by decide, by decide,
    C3_amended_conversion_server_error [] 7 "x,y" "x" (.valueError "x") none
      (some "1") (by decide) (by decide) (by decide)⟩

/-- C4: a non-numeric token in a nonempty `tags` or `ingredients` parameter
makes the conversion raise; no handler exists in this layer, so
`get_queryset` itself yields the error and the request surfaces as a server
error (500), not a 400 response. -/
theorem C4_unhandled_conversion_propagates
    (db : List Recipe) (u : Int) (s tok : String) (e0 : PyErr)
    (hs : s ≠ "") (htok : tok ∈ commaTokens s)
    (he : pythonInt tok = Except.error e0) :
    (∀ ing, (∃ e, recipe_get_queryset db ⟨u, some s, ing⟩ = Except.error e) ∧
      recipe_list_status db ⟨u, some s, ing⟩ = 500 ∧
      recipe_list_status db ⟨u, some s, ing⟩ ≠ 400) ∧
    (∀ tp, (∃ e, recipe_get_queryset db ⟨u, tp, some s⟩ = Except.error e) ∧
      recipe_list_status db ⟨u, tp, some s⟩ = 500 ∧
      recipe_list_status db ⟨u, tp, some s⟩ ≠ 400) := by
  constructor
  · intro ing
    obtain ⟨hex, hst⟩ := recipe_list_status_error_tags db u ing hs htok he
    exact ⟨hex, hst, by rw [hst]; decide⟩
  · intro tp
    obtain ⟨hex, hst⟩ := recipe_list_status_error_ing db u tp hs htok he
    exact ⟨hex, hst, by rw [hst]; decide⟩

/-- Witness for C4 at the concrete requests `tags=abc` and
`tags=1,2&ingredients=abc` (a valid tags parameter next to the bad
ingredients one). -/
theorem C4_unhandled_conversion_propagates_witness :
    ("abc" : String) ≠ "" ∧ "abc" ∈ commaTokens "abc" ∧
    pythonInt "abc" = Except.error (.valueError "abc") ∧
    ((∃ e, recipe_get_queryset [] ⟨1, some "abc", none⟩ = Except.error e) ∧
      recipe_list_status [] ⟨1, some "abc", none⟩ = 500 ∧
      recipe_list_status [] ⟨1, some "abc", none⟩ ≠ 400) ∧
    ((∃ e, recipe_get_queryset [] ⟨1, some "1,2", some "abc"⟩ = Except.error e) ∧
      recipe_list_status [] ⟨1, some "1,2", some "abc"⟩ = 500 ∧
      recipe_list_status [] ⟨1, some "1,2", some "abc"⟩ ≠ 400) :=
  ⟨by decide, by decide, by decide,
    (C4_unhandled_conversion_propagates [] 1 "abc" "abc" (.valueError "abc")
      (by decide) (by decide) (by decide)).1 none,
    (C4_unhandled_conversion_propagates [] 1 "abc" "abc" (.valueError "abc")
      (by decide) (by decide) (by decide)).2 (some "1,2")⟩

/-- C5: on the upload-image action, a payload the image-only serializer
accepts is saved and answered with 200 and the updated serialized record; a
rejected payload is answered with 400 and the serializer's per-field
errors. -/
theorem C5_upload_image_branches
    (ser : ImageSerializer) (db : List Recipe) (recipe : Recipe)
    (payload : ImagePayload) :
    (ser.is_valid payload = true →
      upload_image ser db recipe payload =
        (200, UploadBody.success ⟨recipe.id, ser.validated_image payload⟩,
          save_image db { recipe with image := ser.validated_image payload })) ∧
    (ser.is_valid payload = false →
      upload_image ser db recipe payload =
        (400, UploadBody.failure (ser.errors payload), db)) := by
  constructor
  · intro hv
    simp [upload_image, hv]
  · intro hv
    simp [upload_image, hv]

/-- Witness for C5 with a concrete image serializer (valid iff an image is
submitted), exercising both the 200 and the 400 branch. -/
theorem C5_upload_image_branches_witness :
    ((⟨fun p => p.image.isSome, fun p => p.image,
        fun _ => [("image", "No file was submitted.")]⟩ :
      ImageSerializer).is_valid ⟨some "i.jpg"⟩ = true) ∧
    (upload_image
      ⟨fun p => p.image.isSome, fun p => p.image,
        fun _ => [("image", "No file was submitted.")]⟩
      [⟨1, 1, [], [], none⟩] ⟨1, 1, [], [], none⟩ ⟨some "i.jpg"⟩ =
      (200, UploadBody.success ⟨(⟨1, 1, [], [], none⟩ : Recipe).id,
          (⟨fun p => p.image.isSome, fun p => p.image,
            fun _ => [("image", "No file was submitted.")]⟩ :
            ImageSerializer).validated_image ⟨some "i.jpg"⟩⟩,
        save_image [⟨1, 1, [], [], none⟩]
          { (⟨1, 1, [], [], none⟩ : Recipe) with
            image := (⟨fun p => p.image.isSome, fun p => p.image,
              fun _ => [("image", "No file was submitted.")]⟩ :
              ImageSerializer).validated_image ⟨some "i.jpg"⟩ })) ∧
    ((⟨fun p => p.image.isSome, fun p => p.image,
        fun _ => [("image", "No file was submitted.")]⟩ :
      ImageSerializer).is_valid ⟨none⟩ = false) ∧
    (upload_image
      ⟨fun p => p.image.isSome, fun p => p.image,
        fun _ => [("image", "No file was submitted.")]⟩
      [⟨1, 1, [], [], none⟩] ⟨1, 1, [], [], none⟩ ⟨none⟩ =
      (400, UploadBody.failure
        ((⟨fun p => p.image.isSome, fun p => p.image,
          fun _ => [("image", "No file was submitted.")]⟩ :
          ImageSerializer).errors ⟨none⟩),
        [⟨1, 1, [], [], none⟩])) :=
  ⟨rfl,
    (C5_upload_image_branches
      ⟨fun p => p.image.isSome, fun p => p.image,
        fun _ => [("image", "No file was submitted.")]⟩
      [⟨1, 1, [], [], none⟩] ⟨1, 1, [], [], none⟩ ⟨some "i.jpg"⟩).1 rfl,
    rfl,
    (C5_upload_image_branches
      ⟨fun p => p.image.isSome, fun p => p.image,
        fun _ => [("image", "No file was submitted.")]⟩
      [⟨1, 1, [], [], none⟩] ⟨1, 1, [], [], none⟩ ⟨none⟩).2 rfl⟩

/-- C6: `perform_create` saves the new recipe owned by the requesting user,
whatever user value the validated payload carries (the `user=` keyword
argument passed to `serializer.save` takes precedence), so the client cannot
set or override ownership. -/
theorem C6_create_sets_owner
    (request_user : Int) (validated : RecipePayload) (newId : Int) :
    ∃ r, perform_create request_user validated newId = some r ∧
      r.user = request_user ∧ r.id = newId ∧
      r.tags = validated.tags ∧ r.ingredients = validated.ingredients :=
  ⟨⟨newId, request_user, validated.tags, validated.ingredients, none⟩,
    rfl, rfl, rfl, rfl, rfl⟩

/-- C9: when the image serializer rejects the payload, the table is returned
unchanged (the save branch is never taken) and the only effect is the 400
error response. -/
theorem C9_upload_error_leaves_record_unchanged
    (ser : ImageSerializer) (db : List Recipe) (recipe : Recipe)
    (payload : ImagePayload) (h : ser.is_valid payload = false) :
    (upload_image ser db recipe payload).2.2 = db ∧
    (upload_image ser db recipe payload).1 = 400 ∧
    (upload_image ser db recipe payload).2.1 =
      UploadBody.failure (ser.errors payload) := by
  simp [upload_image, h]

/-- Witness for C9: a serializer that rejects everything leaves a concrete
one-recipe table untouched. -/
theorem C9_upload_error_leaves_record_unchanged_witness :
    ((⟨fun _ => false, fun _ => none, fun _ => [("image", "invalid")]⟩ :
      ImageSerializer).is_valid ⟨some "bad"⟩ = false) ∧
    ((upload_image ⟨fun _ => false, fun _ => none, fun _ => [("image", "invalid")]⟩
        [⟨2, 1, [], [], some "old.png"⟩] ⟨2, 1, [], [], some "old.png"⟩
        ⟨some "bad"⟩).2.2 = [⟨2, 1, [], [], some "old.png"⟩] ∧
      (upload_image ⟨fun _ => false, fun _ => none, fun _ => [("image", "invalid")]⟩
        [⟨2, 1, [], [], some "old.png"⟩] ⟨2, 1, [], [], some "old.png"⟩
        ⟨some "bad"⟩).1 = 400 ∧
      (upload_image ⟨fun _ => false, fun _ => none, fun _ => [("image", "invalid")]⟩
        [⟨2, 1, [], [], some "old.png"⟩] ⟨2, 1, [], [], some "old.png"⟩
        ⟨some "bad"⟩).2.1 = UploadBody.failure
          ((⟨fun _ => false, fun _ => none, fun _ => [("image", "invalid")]⟩ :
            ImageSerializer).errors ⟨some "bad"⟩)) :=
  ⟨rfl,
    C9_upload_error_leaves_record_unchanged
      ⟨fun _ => false, fun _ => none, fun _ => [("image", "invalid")]⟩
      [⟨2, 1, [], [], some "old.png"⟩] ⟨2, 1, [], [], some "old.png"⟩
      ⟨some "bad"⟩ rfl⟩

/-- C7: on tag/ingredient lists, `assigned_only=1` selects exactly the
requesting user's rows referenced by at least one recipe, while
`assigned_only=0` or an absent parameter (the default) selects all of the
requesting user's rows. -/
theorem C7_assigned_only_filter
    (rows : List AttrRow) (recipes : List Recipe) (refs : Recipe → List Int)
    (u : Int) :
    (∀ qs, base_attr_get_queryset rows recipes refs ⟨u, some "1"⟩ = Except.ok qs →
      ∀ a, a ∈ qs ↔ a ∈ rows ∧ a.user = u ∧ ∃ r ∈ recipes, a.id ∈ refs r) ∧
    (∀ qs, base_attr_get_queryset rows recipes refs ⟨u, some "0"⟩ = Except.ok qs →
      ∀ a, a ∈ qs ↔ a ∈ rows ∧ a.user = u) ∧
    (∀ qs, base_attr_get_queryset rows recipes refs ⟨u, none⟩ = Except.ok qs →
      ∀ a, a ∈ qs ↔ a ∈ rows ∧ a.user = u) := by
  have hf1 : assigned_only_flag (some "1") = Except.ok true := by decide
  have hf0 : assigned_only_flag (some "0") = Except.ok false := by decide
  have hfn : assigned_only_flag none = Except.ok false := rfl
  refine ⟨?_, ?_, ?_⟩
  · intro qs hq a
    rw [base_attr_get_queryset_ok_mem hq a]
    constructor
    · rintro ⟨h1, h2, h3⟩
      exact ⟨h1, h2, h3 hf1⟩
    · rintro ⟨h1, h2, h3⟩
      exact ⟨h1, h2, fun _ => h3⟩
  · intro qs hq a
    rw [base_attr_get_queryset_ok_mem hq a]
    constructor
    · rintro ⟨h1, h2, -⟩
      exact ⟨h1, h2⟩
    · rintro ⟨h1, h2⟩
      exact ⟨h1, h2,
        fun hT => absurd (Except.ok.inj (hf0.symm.trans hT)) Bool.false_ne_true⟩
  · intro qs hq a
    rw [base_attr_get_queryset_ok_mem hq a]
    constructor
    · rintro ⟨h1, h2, -⟩
      exact ⟨h1, h2⟩
    · rintro ⟨h1, h2⟩
      exact ⟨h1, h2,
        fun hT => absurd (Except.ok.inj (hfn.symm.trans hT)) Bool.false_ne_true⟩

/-- Witness for C7: one tag assigned to a recipe; `assigned_only=1`,
`assigned_only=0` and the default all produce the characterized results. -/
theorem C7_assigned_only_filter_witness :
    (base_attr_get_queryset [⟨1, 1, "a"⟩] [⟨5, 1, [1], [], none⟩] Recipe.tags
      ⟨1, some "1"⟩ = Except.ok [⟨1, 1, "a"⟩]) ∧
    (base_attr_get_queryset [⟨1, 1, "a"⟩] [⟨5, 1, [1], [], none⟩] Recipe.tags
      ⟨1, some "0"⟩ = Except.ok [⟨1, 1, "a"⟩]) ∧
    (base_attr_get_queryset [⟨1, 1, "a"⟩] [⟨5, 1, [1], [], none⟩] Recipe.tags
      ⟨1, none⟩ = Except.ok [⟨1, 1, "a"⟩]) ∧
    (∀ a, a ∈ [(⟨1, 1, "a"⟩ : AttrRow)] ↔ a ∈ [(⟨1, 1, "a"⟩ : AttrRow)] ∧
      a.user = 1 ∧ ∃ r ∈ [(⟨5, 1, [1], [], none⟩ : Recipe)], a.id ∈ r.tags) ∧
    (∀ a, a ∈ [(⟨1, 1, "a"⟩ : AttrRow)] ↔ a ∈ [(⟨1, 1, "a"⟩ : AttrRow)] ∧
      a.user = 1) :=
  ⟨by decide, by decide, by decide,
    (C7_assigned_only_filter [⟨1, 1, "a"⟩] [⟨5, 1, [1], [], none⟩]
      Recipe.tags 1).1 [⟨1, 1, "a"⟩] (by decide),
    (C7_assigned_only_filter [⟨1, 1, "a"⟩] [⟨5, 1, [1], [], none⟩]
      Recipe.tags 1).2.1 [⟨1, 1, "a"⟩] (by decide)⟩

/-- C8: list results are deterministically ordered after de-duplication —
recipe querysets descending by id, tag/ingredient querysets descending by
name, with no duplicate rows. -/
theorem C8_deterministic_ordering
    (db : List Recipe) (rreq : RecipeListRequest) (rqs : List Recipe)
    (rows : List AttrRow) (recipes : List Recipe) (refs : Recipe → List Int)
    (areq : AttrListRequest) (aqs : List AttrRow)
    (hr : recipe_get_queryset db rreq = Except.ok rqs)
    (ha : base_attr_get_queryset rows recipes refs areq = Except.ok aqs) :
    (rqs.Pairwise (fun a b => b.id ≤ a.id) ∧ rqs.Nodup) ∧
    (aqs.Pairwise (fun a b => b.name ≤ a.name) ∧ aqs.Nodup) :=
  ⟨recipe_get_queryset_ok_sorted hr, base_attr_get_queryset_ok_sorted ha⟩

/-- Witness for C8: three recipes inserted out of id order come back
descending by id; a concrete tag queryset also satisfies the ordering. -/
theorem C8_deterministic_ordering_witness :
    (recipe_get_queryset
      [⟨1, 1, [], [], none⟩, ⟨3, 1, [], [], none⟩, ⟨2, 1, [], [], none⟩]
      ⟨1, none, none⟩ = Except.ok
      [⟨3, 1, [], [], none⟩, ⟨2, 1, [], [], none⟩, ⟨1, 1, [], [], none⟩]) ∧
    (base_attr_get_queryset [⟨4, 1, "z"⟩] [] Recipe.ingredients ⟨1, none⟩ =
      Except.ok [⟨4, 1, "z"⟩]) ∧
    (([(⟨3, 1, [], [], none⟩ : Recipe), ⟨2, 1, [], [], none⟩,
        ⟨1, 1, [], [], none⟩].Pairwise (fun a b => b.id ≤ a.id) ∧
      [(⟨3, 1, [], [], none⟩ : Recipe), ⟨2, 1, [], [], none⟩,
        ⟨1, 1, [], [], none⟩].Nodup) ∧
    ([(⟨4, 1, "z"⟩ : AttrRow)].Pairwise (fun a b => b.name ≤ a.name) ∧
      [(⟨4, 1, "z"⟩ : AttrRow)].Nodup)) :=
  ⟨by decide, by decide,
    C8_deterministic_ordering
      [⟨1, 1, [], [], none⟩, ⟨3, 1, [], [], none⟩, ⟨2, 1, [], [], none⟩]
      ⟨1, none, none⟩
      [⟨3, 1, [], [], none⟩, ⟨2, 1, [], [], none⟩, ⟨1, 1, [], [], none⟩]
      [⟨4, 1, "z"⟩] [] Recipe.ingredients ⟨1, none⟩ [⟨4, 1, "z"⟩]
      (by decide) (by decide)⟩

/-- C10: `assigned_only` is parsed as `bool(int(value))` with default 0 —
any integer-formatted string with nonzero value enables the assigned-only
restriction, `0` or an absent parameter disables it, and a non-integer
value (such as `true` or the empty string) raises an unhandled conversion
error surfacing as a 500, not a 400 response. -/
theorem C10_assigned_only_bool_int_parse :
    (∀ s n, pythonInt s = Except.ok n → n ≠ 0 →
      assigned_only_flag (some s) = Except.ok true) ∧
    (∀ s n rows recipes refs u qs, pythonInt s = Except.ok n → n ≠ 0 →
      base_attr_get_queryset rows recipes refs ⟨u, some s⟩ = Except.ok qs →
      ∀ a, a ∈ qs ↔ a ∈ rows ∧ a.user = u ∧ ∃ r ∈ recipes, a.id ∈ refs r) ∧
    (assigned_only_flag (some "2") = Except.ok true ∧
      assigned_only_flag (some "-1") = Except.ok true) ∧
    (assigned_only_flag (some "0") = Except.ok false ∧
      assigned_only_flag none = Except.ok false) ∧
    (∀ s e, pythonInt s = Except.error e → ∀ rows recipes refs u,
      base_attr_get_queryset rows recipes refs ⟨u, some s⟩ = Except.error e ∧
      attr_list_status rows recipes refs ⟨u, some s⟩ = 500 ∧
      attr_list_status rows recipes refs ⟨u, some s⟩ ≠ 400) ∧
    ((∃ e, assigned_only_flag (some "true") = Except.error e) ∧
      (∃ e, assigned_only_flag (some "") = Except.error e)) := by
  have hflag : ∀ s n, pythonInt s = Except.ok n → n ≠ 0 →
      assigned_only_flag (some s) = Except.ok true := by
    intro s n hp hn
    simp [assigned_only_flag, hp, hn]
  refine ⟨hflag, ?_, ⟨by decide, by decide⟩, ⟨by decide, rfl⟩, ?_, ?_⟩
  · intro s n rows recipes refs u qs hp hn hq a
    have hf := hflag s n hp hn
    rw [base_attr_get_queryset_ok_mem hq a]
    constructor
    · rintro ⟨h1, h2, h3⟩
      exact ⟨h1, h2, h3 hf⟩
    · rintro ⟨h1, h2, h3⟩
      exact ⟨h1, h2, fun _ => h3⟩
  · intro s e hp rows recipes refs u
    have hf : assigned_only_flag (some s) = Except.error e := by
      simp [assigned_only_flag, hp]
    have hq : base_attr_get_queryset rows recipes refs ⟨u, some s⟩ =
        Except.error e := base_attr_get_queryset_eq_error hf
    have hst : attr_list_status rows recipes refs ⟨u, some s⟩ = 500 := by
      unfold attr_list_status
      rw [hq]
    exact ⟨hq, hst, by rw [hst]; decide⟩
  · exact ⟨⟨.valueError "true", by decide⟩, ⟨.valueError "", by decide⟩⟩

/-- Witness for C10: `assigned_only=2` enables the restriction on a concrete
database; `assigned_only=true` yields the 500, not a 400. -/
theorem C10_assigned_only_bool_int_parse_witness :
    pythonInt "2" = Except.ok 2 ∧ (2 : Int) ≠ 0 ∧
    (base_attr_get_queryset [⟨1, 1, "a"⟩] [⟨9, 1, [1], [], none⟩] Recipe.tags
      ⟨1, some "2"⟩ = Except.ok [⟨1, 1, "a"⟩]) ∧
    pythonInt "true" = Except.error (.valueError "true") ∧
    (∀ a, a ∈ [(⟨1, 1, "a"⟩ : AttrRow)] ↔ a ∈ [(⟨1, 1, "a"⟩ : AttrRow)] ∧
      a.user = 1 ∧ ∃ r ∈ [(⟨9, 1, [1], [], none⟩ : Recipe)], a.id ∈ r.tags) ∧
    (base_attr_get_queryset [] [] Recipe.tags ⟨1, some "true"⟩ =
        Except.error (.valueError "true") ∧
      attr_list_status [] [] Recipe.tags ⟨1, some "true"⟩ = 500 ∧
      attr_list_status [] [] Recipe.tags ⟨1, some "true"⟩ ≠ 400) :=
  ⟨by decide, by decide, by decide, by decide,
    C10_assigned_only_bool_int_parse.2.1 "2" 2 [⟨1, 1, "a"⟩]
      [⟨9, 1, [1], [], none⟩] Recipe.tags 1 [⟨1, 1, "a"⟩]
      (by decide) (by decide) (by decide),
    C10_assigned_only_bool_int_parse.2.2.2.2.1 "true" (.valueError "true")
      (by decide) [] [] Recipe.tags 1⟩
